import Mathlib

/-!
Verification model of `blood_donation_bot.py` (ahammadnafiz/Bloodly).

The Python source is shallowly embedded: pure helpers (`parse_dms_coordinate`,
`extract_coords_from_google_maps_link`, phone/date validation) become
executable Lean functions over `List Char`; the external geocoder, the
geodesic distance computation and store availability become an explicit
environment `Env`; the donors table becomes a `List DonorRow`; the
`ConversationHandler` dispatch of `main` becomes `conversationStep`.
Coordinates are modelled as exact rationals, so the floating-point
arithmetic of the source is represented without rounding; an uncaught
Python exception in a handler is modelled as `next = none` (the
conversation state is then left unchanged by the framework).
-/

namespace Bloodly

/-! ### Character classes used by the regular expressions in the source -/

def isDigitCh (c : Char) : Bool := decide (48 ≤ c.toNat ∧ c.toNat ≤ 57)

def dotCh : Char := Char.ofNat 46

def isDotDigitCh (c : Char) : Bool := isDigitCh c || c == dotCh

def isWsCh (c : Char) : Bool :=
  c.toNat == 32 || c.toNat == 9 || c.toNat == 10 || c.toNat == 13 ||
  c.toNat == 11 || c.toNat == 12

def degCh : Char := Char.ofNat 176

def minCh : Char := Char.ofNat 39

def secCh : Char := Char.ofNat 34

def dashCh : Char := Char.ofNat 45

def plusCh : Char := Char.ofNat 43

def commaCh : Char := Char.ofNat 44

def underscoreCh : Char := Char.ofNat 95

/-- Greedy run of characters satisfying `p`: the matched run and the rest.
Models a greedy `X+` or `X*` regex atom followed by a character outside the
class, which is deterministic (no backtracking can succeed). -/
def takeP (p : Char → Bool) : List Char → List Char × List Char
  | [] => ([], [])
  | c :: cs =>
    if p c then
      let q := takeP p cs
      (c :: q.1, q.2)
    else ([], c :: cs)

/-- One-or-more greedy run (`X+`); fails on an empty run. -/
def pGroup (p : Char → Bool) (cs : List Char) : Option (List Char × List Char) :=
  let q := takeP p cs
  if q.1.isEmpty then none else some q

/-- A single literal character. -/
def pLit (c : Char) : List Char → Option (List Char)
  | x :: xs => if x == c then some xs else none
  | [] => none

/-- One character out of a two-character class, capturing it. -/
def pHemi (a b : Char) : List Char → Option (Char × List Char)
  | x :: xs => if x == a || x == b then some (x, xs) else none
  | [] => none

/-- A fixed literal tag. -/
def pTag : List Char → List Char → Option (List Char)
  | [], cs => some cs
  | t :: ts, c :: cs => if c == t then pTag ts cs else none
  | _ :: _, [] => none

/-- Greedy `\s*`. -/
def skipWs (cs : List Char) : List Char := (takeP isWsCh cs).2

/-- Value of a digit run, as Python `float`/`int` read it. -/
def pyNatVal (cs : List Char) : ℕ :=
  cs.foldl (fun a c => 10 * a + (c.toNat - 48)) 0

/-- Split a character list at every dot, mirroring how Python `float`
sees the `[\d.]+` capture group. -/
def splitOnDot : List Char → List (List Char)
  | [] => [[]]
  | c :: cs =>
    match splitOnDot cs with
    | [] => [[]]
    | p :: ps => if c == dotCh then [] :: p :: ps else (c :: p) :: ps

/-- Python `float` applied to a nonempty string of digits and dots:
`"12"`, `"12.5"`, `"12."` and `".5"` succeed; `"."`, `""` and strings with
two or more dots raise `ValueError`. -/
def pyFloatDotDigits (cs : List Char) : Option ℚ :=
  match splitOnDot cs with
  | [a] => if a.isEmpty then none else some (pyNatVal a : ℚ)
  | [a, b] =>
    if a.isEmpty && b.isEmpty then none
    else some ((pyNatVal a : ℚ) + (pyNatVal b : ℚ) / 10 ^ b.length)
  | _ => none

/-! ### `parse_dms_coordinate` (source lines 51-62)

Pattern: one latitude group `(\d+)°(\d+)'([\d.]+)\"([NS])`, then `\s*`,
then the longitude group with `([EW])`; `re.match` anchors at the start
only, so trailing text is ignored.  The captured second groups are fed to
`float`, which raises (uncaught in the handlers) when a capture such as
`".."` is not a valid float; this is the `Except.error` outcome. -/

structure DmsGroups where
  latD : List Char
  latM : List Char
  latS : List Char
  latDir : Char
  lonD : List Char
  lonM : List Char
  lonS : List Char
  lonDir : Char
deriving DecidableEq

/-- One `(\d+)°(\d+)'([\d.]+)\"([XY])` half of the DMS pattern. -/
def dmsHalf (d1 d2 : Char) (cs : List Char) :
    Option ((List Char × List Char × List Char × Char) × List Char) :=
  (pGroup isDigitCh cs).bind fun q1 =>
  (pLit degCh q1.2).bind fun r2 =>
  (pGroup isDigitCh r2).bind fun q2 =>
  (pLit minCh q2.2).bind fun r4 =>
  (pGroup isDotDigitCh r4).bind fun q3 =>
  (pLit secCh q3.2).bind fun r6 =>
  (pHemi d1 d2 r6).map fun h => ((q1.1, q2.1, q3.1, h.1), h.2)

/-- The full regex of `parse_dms_coordinate`, anchored at the start. -/
def dmsMatch (cs : List Char) : Option DmsGroups :=
  (dmsHalf 'N' 'S' cs).bind fun lat =>
  (dmsHalf 'E' 'W' (skipWs lat.2)).map fun lon =>
    ⟨lat.1.1, lat.1.2.1, lat.1.2.2.1, lat.1.2.2.2,
     lon.1.1, lon.1.2.1, lon.1.2.2.1, lon.1.2.2.2⟩

/-- `float(d) + float(m)/60 + float(s)/3600`, negated for `S`/`W`. -/
def dmsValue (dd mm ss : List Char) (neg : Bool) : Option ℚ :=
  (pyFloatDotDigits ss).map fun s =>
    (if neg then (-1 : ℚ) else 1) *
      ((pyNatVal dd : ℚ) + (pyNatVal mm : ℚ) / 60 + s / 3600)

/-- Model of `parse_dms_coordinate`: `.ok none` is Python `None` (no regex
match), `.ok (some _)` a parsed pair, `.error ()` an uncaught `ValueError`
from `float` on a malformed seconds capture. -/
def parse_dms_coordinate (s : String) : Except Unit (Option (ℚ × ℚ)) :=
  match dmsMatch s.data with
  | none => .ok none
  | some g =>
    match dmsValue g.latD g.latM g.latS (g.latDir == 'S'),
          dmsValue g.lonD g.lonM g.lonS (g.lonDir == 'W') with
    | some la, some lo => .ok (some (la, lo))
    | _, _ => .error ()

/-! ### `extract_coords_from_google_maps_link` (source lines 144-153) -/

/-- `-?\d+\.\d+` at the current position, as a rational. -/
def pSignedDec (cs : List Char) : Option (ℚ × List Char) :=
  let body : Bool × List Char :=
    match cs with
    | c :: rest => if c == dashCh then (true, rest) else (false, cs)
    | [] => (false, [])
  (pGroup isDigitCh body.2).bind fun q1 =>
  (pLit dotCh q1.2).bind fun r2 =>
  (pGroup isDigitCh r2).map fun q2 =>
    ((if body.1 then (-1 : ℚ) else 1) *
       ((pyNatVal q1.1 : ℚ) + (pyNatVal q2.1 : ℚ) / 10 ^ q2.1.length),
     q2.2)

/-- The pattern `tag(-?\d+\.\d+),(-?\d+\.\d+)` at the current position. -/
def pPairAt (tag : List Char) (cs : List Char) : Option (ℚ × ℚ) :=
  (pTag tag cs).bind fun r1 =>
  (pSignedDec r1).bind fun a =>
  (pLit commaCh a.2).bind fun r3 =>
  (pSignedDec r3).map fun b => (a.1, b.1)

/-- `re.search`: leftmost position where the pattern matches. -/
def searchPair (tag : List Char) : List Char → Option (ℚ × ℚ)
  | [] => none
  | c :: cs =>
    match pPairAt tag (c :: cs) with
    | some p => some p
    | none => searchPair tag cs

def atTag : List Char := [Char.ofNat 64]

def llTag : List Char := ['l', 'l', Char.ofNat 61]

/-- Model of `extract_coords_from_google_maps_link`: try the `@lat,lon`
pattern first, then `ll=lat,lon`. -/
def extract_coords_from_google_maps_link (s : String) : Option (ℚ × ℚ) :=
  match searchPair atTag s.data with
  | some p => some p
  | none => searchPair llTag s.data

/-! ### Data model -/

/-- The enumeration `MENU, LOCATION, BLOOD_TYPE, CONTACT, PROFILE, FIND,
EMERGENCY, LOCATION_FIND = range(8)` of source line 26, restricted to the
states that appear in the `ConversationHandler` of `main`, together with
`ENDV` for `ConversationHandler.END` (which also covers "no conversation",
where only the entry point `/start` fires). -/
inductive ChatState
  | MENU | LOCATION | BLOOD_TYPE | CONTACT | PROFILE | LOCATION_FIND | EMERGENCY | ENDV
deriving DecidableEq

def BLOOD_TYPES : List String := ["A+", "A-", "B+", "B-", "AB+", "AB-", "O+", "O-"]

structure DateYMD where
  y : ℕ
  m : ℕ
  d : ℕ
deriving DecidableEq

/-- A row of the `donors` table (source lines 35-46). -/
structure DonorRow where
  user_id : ℤ
  name : String
  blood_type : String
  latitude : ℚ
  longitude : ℚ
  contact : String
  last_donation : Option DateYMD
deriving DecidableEq

/-- The per-user scratchpad `context.user_data`; `none` means the key is
absent (a read then raises `KeyError`). -/
structure UserData where
  latitude : Option ℚ
  longitude : Option ℚ
  blood_type : Option String
  contact : Option String
deriving DecidableEq

inductive GeoResult
  | found (lat lon : ℚ)
  | notFound
  | geoError
deriving DecidableEq

/-- External collaborators: the Nominatim geocoder, the geodesic distance
computation used by the donor query (abstract: it is transcendental), and
whether store calls raise. -/
structure Env where
  geocode : String → GeoResult
  dist : ℚ → ℚ → ℚ → ℚ → ℚ
  dbFail : Bool

/-- The distinct outbound messages of the source, by send site. -/
inductive Msg
  | welcome (registered : Bool)
  | invalidChoice
  | askLocationDonate
  | askBloodType
  | askBloodTypeEmergency
  | askLocationFind
  | askLocationEmergency
  | askContact
  | invalidContact
  | askDate
  | invalidDate
  | savedOk
  | saveError
  | invalidLocation
  | locationError
  | donorsFound (rows : List (String × String × ℚ))
  | noDonorsFound
  | profileShown (r : DonorRow)
  | profileNotFound
  | profileError
deriving DecidableEq

/-- Inbound events: a text message (commands such as `/start` included), a
native location share, or an inline-button callback with its data token. -/
inductive Event
  | textMsg (t : String)
  | locMsg (lat lon : ℚ)
  | callback (data : String)
deriving DecidableEq

/-- Result of one handler call.  `next = none` models an uncaught Python
exception: the framework logs it and the conversation state is unchanged.
`queried` records an invocation of `find_nearest_donors` (source line 280)
with its arguments. -/
structure HOut where
  next : Option ChatState
  ud : UserData
  db : List DonorRow
  reply : Option Msg
  queried : Option (ℚ × ℚ × String)
deriving DecidableEq

/-! ### Small helpers from the source -/

/-- Python `str.lower` on the ASCII letters (sufficient for the `"never"`
comparison of source line 178). -/
def lowerCh (c : Char) : Char :=
  if 65 ≤ c.toNat ∧ c.toNat ≤ 90 then Char.ofNat (c.toNat + 32) else c

def pyLowerStr (s : String) : String := String.mk (s.data.map lowerCh)

/-- `\d{10}$` where `$` also matches just before one trailing newline. -/
def tenDigitsEnd : ℕ → List Char → Bool
  | 0, rest => rest == [] || rest == [Char.ofNat 10]
  | k + 1, c :: cs => isDigitCh c && tenDigitsEnd k cs
  | _ + 1, [] => false

/-- `re.match(r'^\+?880\d{10}$', contact)` of source line 167. -/
def pyPhoneMatch (s : String) : Bool :=
  let body : List Char :=
    match s.data with
    | c :: cs => if c == plusCh then cs else s.data
    | [] => []
  match body with
  | a :: b :: c :: rest => a == '8' && b == '8' && c == '0' && tenDigitsEnd 10 rest
  | _ => false

def isLeap (y : ℕ) : Bool := (y % 4 == 0 && y % 100 != 0) || y % 400 == 0

def daysInMonth (y m : ℕ) : ℕ :=
  if m = 2 then (if isLeap y then 29 else 28)
  else if m = 4 ∨ m = 6 ∨ m = 9 ∨ m = 11 then 30 else 31

/-- `datetime` accepts years 1..9999 and calendar-valid month/day. -/
def validYMD (y m d : ℕ) : Bool :=
  decide (1 ≤ y) && decide (1 ≤ m) && decide (m ≤ 12) &&
  decide (1 ≤ d) && decide (d ≤ daysInMonth y m)

/-- `%Y`: exactly four digits. -/
def parse4Digits : List Char → Option (ℕ × List Char)
  | a :: b :: c :: d :: rest =>
    if isDigitCh a && isDigitCh b && isDigitCh c && isDigitCh d then
      some (pyNatVal [a, b, c, d], rest)
    else none
  | _ => none

/-- `%m` / `%d`: one or two digits, greedy (equivalent to the backtracking
regex because the following literal is never a digit). -/
def pMonthDay : List Char → Option (ℕ × List Char)
  | a :: b :: rest =>
    if isDigitCh a then
      if isDigitCh b then some (pyNatVal [a, b], rest)
      else some (pyNatVal [a], b :: rest)
    else none
  | [a] => if isDigitCh a then some (pyNatVal [a], []) else none
  | [] => none

/-- `datetime.strptime(s, '%Y-%m-%d')` of source line 182: full-string
match and a calendar-valid date, else `ValueError` (modelled as `none`). -/
def pyStrptimeYmd (s : String) : Option DateYMD :=
  match parse4Digits s.data with
  | none => none
  | some (y, r1) =>
    match r1 with
    | c :: r2 =>
      if c == dashCh then
        match pMonthDay r2 with
        | none => none
        | some (m, r3) =>
          match r3 with
          | c2 :: r4 =>
            if c2 == dashCh then
              match pMonthDay r4 with
              | none => none
              | some (d, r5) =>
                if r5 == [] && validYMD y m d then some ⟨y, m, d⟩ else none
            else none
          | [] => none
      else none
    | [] => none

/-- Split on underscores, for `query.data.split('_')`. -/
def splitOnUnderscore : List Char → List (List Char)
  | [] => [[]]
  | c :: cs =>
    match splitOnUnderscore cs with
    | [] => [[]]
    | p :: ps => if c == underscoreCh then [] :: p :: ps else (c :: p) :: ps

/-- `query.data.split('_')[1]` of source lines 159 and 242. -/
def bloodPayload (data : String) : String :=
  String.mk ((splitOnUnderscore data.data).getD 1 [])

def bloodTag : List Char := ['b', 'l', 'o', 'o', 'd', underscoreCh]

/-- The `pattern=r'^blood_'` filter of the callback handlers. -/
def startsBlood (data : String) : Bool := (pTag bloodTag data.data).isSome

/-! ### Handlers (one Lean definition per Python handler) -/

/-- Outcome of the free-text branch shared verbatim by `location` (lines
114-134) and `location_find` (lines 254-274): DMS parse, then map-link
extraction, then geocoding of `text + ", Bangladesh"`. -/
inductive ResolveOutcome
  | okR (lat lon : ℚ)
  | invalid
  | geoErr
  | crash
deriving DecidableEq

def resolveFreeText (env : Env) (t : String) : ResolveOutcome :=
  match parse_dms_coordinate t with
  | .error _ => .crash
  | .ok (some (la, lo)) => .okR la lo
  | .ok none =>
    match extract_coords_from_google_maps_link t with
    | some (la, lo) => .okR la lo
    | none =>
      match env.geocode (t ++ ", Bangladesh") with
      | .found la lo => .okR la lo
      | .notFound => .invalid
      | .geoError => .geoErr

/-- `start` (lines 64-86): an unguarded store lookup of whether the user
is registered (raises on store failure), then the menu. -/
def start (env : Env) (db : List DonorRow) (ud : UserData) (uid : ℤ) : HOut :=
  if env.dbFail then ⟨none, ud, db, none, none⟩
  else ⟨some .MENU, ud, db,
        some (.welcome (db.any fun r => decide (r.user_id = uid))), none⟩

/-- `show_profile` (lines 290-319). -/
def show_profile (env : Env) (db : List DonorRow) (ud : UserData) (uid : ℤ) : HOut :=
  if env.dbFail then ⟨some .ENDV, ud, db, some .profileError, none⟩
  else
    match db.find? (fun r => decide (r.user_id = uid)) with
    | some r => ⟨some .ENDV, ud, db, some (.profileShown r), none⟩
    | none => ⟨some .ENDV, ud, db, some .profileNotFound, none⟩

/-- `find_blood` (lines 233-236): straight to `LOCATION_FIND`, no
blood-type prompt. -/
def find_blood (env : Env) (db : List DonorRow) (ud : UserData) : HOut :=
  ⟨some .LOCATION_FIND, ud, db, some .askLocationFind, none⟩

/-- `menu_callback` (lines 88-106). -/
def menu_callback (env : Env) (db : List DonorRow) (ud : UserData) (uid : ℤ)
    (data : String) : HOut :=
  if data = "donate" then ⟨some .LOCATION, ud, db, some .askLocationDonate, none⟩
  else if data = "find" then find_blood env db ud
  else if data = "emergency" then ⟨some .EMERGENCY, ud, db, some .askBloodTypeEmergency, none⟩
  else if data = "profile" then show_profile env db ud uid
  else ⟨some .MENU, ud, db, some .invalidChoice, none⟩

/-- `location` (lines 108-142), the registration location capture. -/
def location (env : Env) (db : List DonorRow) (ud : UserData) (ev : Event) : HOut :=
  match ev with
  | .locMsg la lo =>
    ⟨some .BLOOD_TYPE, ⟨some la, some lo, ud.blood_type, ud.contact⟩, db,
     some .askBloodType, none⟩
  | .textMsg t =>
    if t.data = [] then ⟨some .LOCATION, ud, db, some .invalidLocation, none⟩
    else
      match resolveFreeText env t with
      | .okR la lo =>
        ⟨some .BLOOD_TYPE, ⟨some la, some lo, ud.blood_type, ud.contact⟩, db,
         some .askBloodType, none⟩
      | .invalid => ⟨some .LOCATION, ud, db, some .invalidLocation, none⟩
      | .geoErr => ⟨some .LOCATION, ud, db, some .locationError, none⟩
      | .crash => ⟨none, ud, db, none, none⟩
  | .callback _ => ⟨some .LOCATION, ud, db, some .invalidLocation, none⟩

/-- `blood_type_callback` (lines 155-162): stores `data.split('_')[1]`
with no membership check against `BLOOD_TYPES`. -/
def blood_type_callback (env : Env) (db : List DonorRow) (ud : UserData)
    (data : String) : HOut :=
  ⟨some .CONTACT, ⟨ud.latitude, ud.longitude, some (bloodPayload data), ud.contact⟩,
   db, some .askContact, none⟩

/-- `contact` (lines 164-173). -/
def contact (env : Env) (db : List DonorRow) (ud : UserData) (t : String) : HOut :=
  if pyPhoneMatch t then
    ⟨some .PROFILE, ⟨ud.latitude, ud.longitude, ud.blood_type, some t⟩, db,
     some .askDate, none⟩
  else ⟨some .CONTACT, ud, db, some .invalidContact, none⟩

/-- The `INSERT ... ON CONFLICT (user_id) DO UPDATE` of lines 192-205:
update the conflicting row in place, else append. -/
def commitDonor (db : List DonorRow) (row : DonorRow) : List DonorRow :=
  if db.any (fun r => decide (r.user_id = row.user_id)) then
    db.map fun r => if r.user_id = row.user_id then row else r
  else db ++ [row]

/-- The commit step of `profile` (lines 190-213).  The scratchpad reads of
lines 203-205 happen inside the `try`, so a missing key is caught exactly
like a store failure: the generic save-error message, and the handler
still returns `ConversationHandler.END`. -/
def commitStep (env : Env) (db : List DonorRow) (ud : UserData) (uid : ℤ)
    (uname : String) (ld : Option DateYMD) : HOut :=
  match env.dbFail, ud.blood_type, ud.latitude, ud.longitude, ud.contact with
  | false, some bt, some la, some lo, some ct =>
    ⟨some .ENDV, ud, commitDonor db ⟨uid, uname, bt, la, lo, ct, ld⟩,
     some .savedOk, none⟩
  | _, _, _, _, _ => ⟨some .ENDV, ud, db, some .saveError, none⟩

/-- `profile` (lines 175-213), the last-donation capture and commit. -/
def profile (env : Env) (db : List DonorRow) (ud : UserData) (uid : ℤ)
    (uname : String) (t : String) : HOut :=
  if pyLowerStr t = "never" then commitStep env db ud uid uname none
  else
    match pyStrptimeYmd t with
    | some d => commitStep env db ud uid uname (some d)
    | none => ⟨some .PROFILE, ud, db, some .invalidDate, none⟩

/-- Pointwise order on result entries by the distance component. -/
def distLE (x y : String × String × ℚ) : Prop := x.2.2 ≤ y.2.2

instance : DecidableRel distLE := fun x y => inferInstanceAs (Decidable (x.2.2 ≤ y.2.2))

instance : IsTotal (String × String × ℚ) distLE := ⟨fun x y => le_total x.2.2 y.2.2⟩

instance : IsTrans (String × String × ℚ) distLE := ⟨fun _ _ _ h h2 => le_trans h h2⟩

/-- `find_nearest_donors` (lines 215-231): filter the table to the exact
blood type, compute the distance of each row to the query point, order
ascending by distance, truncate to `limit`; any store or query error is
caught and yields `[]`. -/
def find_nearest_donors (env : Env) (db : List DonorRow) (lat lon : ℚ)
    (bt : String) (limit : ℕ) : List (String × String × ℚ) :=
  if env.dbFail then []
  else
    (List.insertionSort distLE
      ((db.filter (fun r => decide (r.blood_type = bt))).map fun r =>
        (r.name, r.contact, env.dist r.latitude r.longitude lat lon))).take limit

/-- `emergency_callback` (lines 238-246): stores the sought blood type,
then asks for the location. -/
def emergency_callback (env : Env) (db : List DonorRow) (ud : UserData)
    (data : String) : HOut :=
  ⟨some .LOCATION_FIND,
   ⟨ud.latitude, ud.longitude, some (bloodPayload data), ud.contact⟩, db,
   some .askLocationEmergency, none⟩

/-- The matcher invocation of `location_find` (lines 279-288): the read of
`context.user_data['blood_type']` at line 279 is outside any `try`, so a
missing key raises `KeyError` uncaught. -/
def runFind (env : Env) (db : List DonorRow) (ud : UserData) (la lo : ℚ) : HOut :=
  match ud.blood_type with
  | none => ⟨none, ud, db, none, none⟩
  | some bt =>
    let donors := find_nearest_donors env db la lo bt 5
    if donors.isEmpty then ⟨some .ENDV, ud, db, some .noDonorsFound, some (la, lo, bt)⟩
    else ⟨some .ENDV, ud, db, some (.donorsFound donors), some (la, lo, bt)⟩

/-- `location_find` (lines 248-288). -/
def location_find (env : Env) (db : List DonorRow) (ud : UserData) (ev : Event) : HOut :=
  match ev with
  | .locMsg la lo => runFind env db ud la lo
  | .textMsg t =>
    if t.data = [] then ⟨some .LOCATION_FIND, ud, db, some .invalidLocation, none⟩
    else
      match resolveFreeText env t with
      | .okR la lo => runFind env db ud la lo
      | .invalid => ⟨some .LOCATION_FIND, ud, db, some .invalidLocation, none⟩
      | .geoErr => ⟨some .LOCATION_FIND, ud, db, some .locationError, none⟩
      | .crash => ⟨none, ud, db, none, none⟩
  | .callback _ => ⟨some .LOCATION_FIND, ud, db, some .invalidLocation, none⟩

/-! ### The `ConversationHandler` dispatch of `main` (lines 324-336)

For each update, the current state's handlers are tried first; only when
none of them accepts the update are the fallbacks tried
(`CommandHandler('start', start)`).  `filters.TEXT` accepts every text
message, commands such as `/start` included, which is why the text-capture
states swallow `/start`.  An update no handler accepts is dropped. -/

structure Bot where
  chat : ChatState
  ud : UserData
  db : List DonorRow
deriving DecidableEq

structure StepRes where
  bot : Bot
  reply : Option Msg
  queried : Option (ℚ × ℚ × String)
  crash : Bool
deriving DecidableEq

def applyH (b : Bot) (h : HOut) : StepRes :=
  ⟨⟨h.next.getD b.chat, h.ud, h.db⟩, h.reply, h.queried, h.next.isNone⟩

def noop (b : Bot) : StepRes := ⟨b, none, none, false⟩

def isStartCmd : Event → Bool
  | .textMsg t => t == "/start"
  | _ => false

def isTextOrLoc : Event → Bool
  | .textMsg _ => true
  | .locMsg _ _ => true
  | .callback _ => false

def fallbackStep (env : Env) (b : Bot) (uid : ℤ) (ev : Event) : StepRes :=
  if isStartCmd ev then applyH b (start env b.db b.ud uid) else noop b

def conversationStep (env : Env) (b : Bot) (uid : ℤ) (uname : String)
    (ev : Event) : StepRes :=
  match b.chat with
  | .MENU =>
    match ev with
    | .callback d => applyH b (menu_callback env b.db b.ud uid d)
    | _ => fallbackStep env b uid ev
  | .LOCATION =>
    if isTextOrLoc ev then applyH b (location env b.db b.ud ev)
    else fallbackStep env b uid ev
  | .BLOOD_TYPE =>
    match ev with
    | .callback d =>
      if startsBlood d then applyH b (blood_type_callback env b.db b.ud d)
      else fallbackStep env b uid ev
    | _ => fallbackStep env b uid ev
  | .CONTACT =>
    match ev with
    | .textMsg t => applyH b (contact env b.db b.ud t)
    | _ => fallbackStep env b uid ev
  | .PROFILE =>
    match ev with
    | .textMsg t => applyH b (profile env b.db b.ud uid uname t)
    | _ => fallbackStep env b uid ev
  | .LOCATION_FIND =>
    if isTextOrLoc ev then applyH b (location_find env b.db b.ud ev)
    else fallbackStep env b uid ev
  | .EMERGENCY =>
    match ev with
    | .callback d =>
      if startsBlood d then applyH b (emergency_callback env b.db b.ud d)
      else fallbackStep env b uid ev
    | _ => fallbackStep env b uid ev
  | .ENDV =>
    if isStartCmd ev then applyH b (start env b.db b.ud uid) else noop b

/-! ### Concrete environments and sessions used by witnesses -/

/-- Geocoder that finds nothing, zero distance, working store. -/
def envNF : Env := ⟨fun _ => .notFound, fun _ _ _ _ => 0, false⟩

/-- Geocoder that raises, working store. -/
def envGE : Env := ⟨fun _ => .geoError, fun _ _ _ _ => 0, false⟩

/-- Failing store. -/
def envDBF : Env := ⟨fun _ => .notFound, fun _ _ _ _ => 0, true⟩

/-- Empty scratchpad. -/
def udE : UserData := ⟨none, none, none, none⟩

/-- Fully captured scratchpad, as after the end-to-end registration flow of
the spec (location `23.8103,90.4125` stands in as exact rationals). -/
def udF : UserData := ⟨some 1, some 2, some "O+", some "+8801712345678"⟩

/-! ### Claim C2: the donor matcher -/

/-- Claim C2.  With `env.dist` standing for the geodesic distance of the
query, `find_nearest_donors` returns only entries projected from stored
donors whose blood type equals the requested one exactly, never more than
`limit` of them, and in non-decreasing order of that distance (`distLE`
compares the distance components). -/
theorem c2_find_nearest_props (env : Env) (db : List DonorRow) (lat lon : ℚ)
    (bt : String) (limit : ℕ) :
    (∀ e ∈ find_nearest_donors env db lat lon bt limit,
        ∃ r ∈ db, r.blood_type = bt
          ∧ e = (r.name, r.contact, env.dist r.latitude r.longitude lat lon))
    ∧ (find_nearest_donors env db lat lon bt limit).length ≤ limit
    ∧ List.Sorted distLE (find_nearest_donors env db lat lon bt limit) := by
  unfold find_nearest_donors
  by_cases h : env.dbFail
  · simp [h, List.Sorted]
  · simp only [h, if_false]
    refine ⟨?_, ?_, ?_⟩
    · intro e he
      have he2 := List.take_subset _ _ he
      rw [List.mem_insertionSort] at he2
      obtain ⟨r, hr, rfl⟩ := List.mem_map.1 he2
      have hf := List.mem_filter.1 hr
      exact ⟨r, hf.1, of_decide_eq_true hf.2, rfl⟩
    · simp [List.length_take]
    · exact List.Pairwise.sublist (List.take_sublist _ _)
        (List.sorted_insertionSort distLE _)

/-- Witness for C2 at a concrete store: the single `A+` donor is returned
and traced back to its stored row, within the limit and sorted. -/
theorem c2_find_nearest_witness :
    (∃ r ∈ [DonorRow.mk 1 "A" "A+" 0 0 "c" none], r.blood_type = "A+"
      ∧ ("A", "c", (0 : ℚ)) = (r.name, r.contact, envNF.dist r.latitude r.longitude 0 0))
    ∧ (find_nearest_donors envNF [DonorRow.mk 1 "A" "A+" 0 0 "c" none] 0 0 "A+" 5).length ≤ 5
    ∧ List.Sorted distLE (find_nearest_donors envNF [DonorRow.mk 1 "A" "A+" 0 0 "c" none] 0 0 "A+" 5) :=
  ⟨(c2_find_nearest_props envNF [DonorRow.mk 1 "A" "A+" 0 0 "c" none] 0 0 "A+" 5).1
      ("A", "c", 0) (by simp [find_nearest_donors, envNF, distLE, List.insertionSort]),
   (c2_find_nearest_props envNF [DonorRow.mk 1 "A" "A+" 0 0 "c" none] 0 0 "A+" 5).2.1,
   (c2_find_nearest_props envNF [DonorRow.mk 1 "A" "A+" 0 0 "c" none] 0 0 "A+" 5).2.2⟩

/-! ### Claim C8: fail-soft matcher and rendering -/

/-- Claim C8.  A store or query failure inside `find_nearest_donors` is
swallowed into `[]`; a blood type with no stored donors also yields `[]`;
and `location_find` renders an empty result with the distinct
`noDonorsFound` message (not an error message) while ending the flow. -/
theorem c8_fail_soft (env : Env) (db : List DonorRow) (ud : UserData)
    (la lo : ℚ) (bt : String) (lim : ℕ) :
    (env.dbFail = true → find_nearest_donors env db la lo bt lim = [])
    ∧ ((db.filter fun r => decide (r.blood_type = bt)) = [] →
        find_nearest_donors env db la lo bt lim = [])
    ∧ (ud.blood_type = some bt → find_nearest_donors env db la lo bt 5 = [] →
        location_find env db ud (.locMsg la lo)
          = ⟨some .ENDV, ud, db, some .noDonorsFound, some (la, lo, bt)⟩) := by
  refine ⟨fun h => by simp [find_nearest_donors, h], fun h => ?_, fun h1 h2 => ?_⟩
  · unfold find_nearest_donors
    rw [h]
    simp
  · simp [location_find, runFind, h1, h2]

/-- Witness for C8, at the spec's own test vector: a failing store yields
`[]`, and a `B-` query against a store with no `B-` donor renders the
no-donors message. -/
theorem c8_fail_soft_witness :
    find_nearest_donors envDBF [] 0 0 "B-" 5 = []
    ∧ location_find envNF [] ⟨none, none, some "B-", none⟩ (.locMsg 0 0)
        = ⟨some .ENDV, ⟨none, none, some "B-", none⟩, [], some .noDonorsFound,
           some (0, 0, "B-")⟩ :=
  ⟨(c8_fail_soft envDBF [] udE 0 0 "B-" 5).1 rfl,
   (c8_fail_soft envNF [] ⟨none, none, some "B-", none⟩ 0 0 "B-" 5).2.2 rfl rfl⟩

/-! ### Claim C4: upsert semantics of the registration commit -/

/-- Number of stored rows keyed by `uid`. -/
def countId (db : List DonorRow) (uid : ℤ) : ℕ :=
  (db.filter fun r => decide (r.user_id = uid)).length

/-- The `UNIQUE` constraint on `user_id` (source line 38). -/
def UniqueKeyed (db : List DonorRow) : Prop :=
  db.Pairwise fun a b => a.user_id ≠ b.user_id

lemma commit_point_id (row r : DonorRow) :
    (if r.user_id = row.user_id then row else r).user_id = r.user_id := by
  by_cases h : r.user_id = row.user_id <;> simp [h]

lemma filter_unique_le (db : List DonorRow) (uid : ℤ) (hu : UniqueKeyed db) :
    (db.filter fun r => decide (r.user_id = uid)).length ≤ 1 := by
  induction db with
  | nil => simp
  | cons a l ih =>
    rw [UniqueKeyed, List.pairwise_cons] at hu
    by_cases ha : a.user_id = uid
    · have hl : (l.filter fun r => decide (r.user_id = uid)) = [] := by
        rw [List.filter_eq_nil_iff]
        intro b hb hdec
        exact hu.1 b hb (ha.trans (of_decide_eq_true hdec).symm)
      simp [List.filter_cons, ha, hl]
    · simpa [List.filter_cons, ha] using ih hu.2

lemma commitDonor_pos (db : List DonorRow) (row : DonorRow)
    (h : db.any (fun r => decide (r.user_id = row.user_id)) = true) :
    commitDonor db row = db.map fun r => if r.user_id = row.user_id then row else r := by
  simp [commitDonor, h]

lemma commitDonor_neg (db : List DonorRow) (row : DonorRow)
    (h : db.any (fun r => decide (r.user_id = row.user_id)) = false) :
    commitDonor db row = db ++ [row] := by
  simp [commitDonor, h]

lemma filter_commit_map (db : List DonorRow) (row : DonorRow) (uid : ℤ) :
    ((db.map fun r => if r.user_id = row.user_id then row else r).filter
        fun r => decide (r.user_id = uid))
      = ((db.filter fun r => decide (r.user_id = uid)).map
          fun r => if r.user_id = row.user_id then row else r) := by
  rw [List.filter_map]
  congr 1
  apply List.filter_congr
  intro a _
  simp only [Function.comp]
  rw [commit_point_id]

lemma c4_filter_one (db : List DonorRow) (row : DonorRow) (hu : UniqueKeyed db) :
    (commitDonor db row).filter (fun r => decide (r.user_id = row.user_id)) = [row] := by
  by_cases hany : db.any (fun r => decide (r.user_id = row.user_id)) = true
  · obtain ⟨r0, hr0, hr0id⟩ := List.any_eq_true.1 hany
    have hmem : r0 ∈ db.filter fun r => decide (r.user_id = row.user_id) :=
      List.mem_filter.2 ⟨hr0, hr0id⟩
    have hlen : (db.filter fun r => decide (r.user_id = row.user_id)).length = 1 := by
      have hle := filter_unique_le db row.user_id hu
      have h1 : 0 < (db.filter fun r => decide (r.user_id = row.user_id)).length :=
        List.length_pos.2 (fun hnil => by rw [hnil] at hmem; simp at hmem)
      omega
    obtain ⟨x, hx⟩ := List.length_eq_one.1 hlen
    have hxid : x.user_id = row.user_id := by
      have hxm : x ∈ db.filter fun r => decide (r.user_id = row.user_id) := by
        rw [hx]; exact List.mem_singleton.2 rfl
      exact of_decide_eq_true (List.mem_filter.1 hxm).2
    rw [commitDonor_pos db row hany, filter_commit_map, hx]
    simp [hxid]
  · have hany2 : db.any (fun r => decide (r.user_id = row.user_id)) = false := by
      simpa using hany
    rw [commitDonor_neg db row hany2, List.filter_append]
    have h1 : (db.filter fun r => decide (r.user_id = row.user_id)) = [] := by
      rw [List.filter_eq_nil_iff]
      exact List.any_eq_false.1 hany2
    simp [h1]

/-- Claim C4.  Committing a registration upserts: afterwards the table
holds exactly the new row under that identifier, the unique-key invariant
is preserved, a second commit under the same identifier replaces in place
(the table does not grow), and rows under other identifiers are untouched. -/
theorem c4_upsert (db : List DonorRow) (row row2 : DonorRow) (hu : UniqueKeyed db) :
    (commitDonor db row).filter (fun r => decide (r.user_id = row.user_id)) = [row]
    ∧ countId (commitDonor db row) row.user_id = 1
    ∧ UniqueKeyed (commitDonor db row)
    ∧ (row2.user_id = row.user_id →
        (commitDonor (commitDonor db row) row2).length = (commitDonor db row).length)
    ∧ (∀ r ∈ commitDonor db row, r.user_id ≠ row.user_id → r ∈ db) := by
  have hfil := c4_filter_one db row hu
  have key : ∀ row3 : DonorRow, row3.user_id = row.user_id →
      (commitDonor (commitDonor db row) row3).length = (commitDonor db row).length := by
    intro row3 h3
    have hm : row ∈ commitDonor db row := by
      have hx : row ∈ (commitDonor db row).filter fun r => decide (r.user_id = row.user_id) := by
        rw [hfil]; exact List.mem_singleton.2 rfl
      exact (List.mem_filter.1 hx).1
    have hany : (commitDonor db row).any (fun r => decide (r.user_id = row3.user_id)) = true := by
      rw [List.any_eq_true]
      exact ⟨row, hm, by simp [h3]⟩
    rw [commitDonor_pos (commitDonor db row) row3 hany, List.length_map]
  refine ⟨hfil, by rw [countId, hfil]; simp, ?_, key row2, ?_⟩
  · by_cases hany : db.any (fun r => decide (r.user_id = row.user_id)) = true
    · rw [commitDonor_pos db row hany]
      exact List.Pairwise.map _
        (fun a b h => by rw [commit_point_id, commit_point_id]; exact h) hu
    · have hany2 : db.any (fun r => decide (r.user_id = row.user_id)) = false := by
        simpa using hany
      rw [commitDonor_neg db row hany2, UniqueKeyed, List.pairwise_append]
      refine ⟨hu, List.pairwise_singleton _ _, ?_⟩
      intro a ha b hb
      rw [List.mem_singleton] at hb
      subst hb
      intro hid
      exact (List.any_eq_false.1 hany2) a ha (by simp [hid])
  · intro r hr hne
    by_cases hany : db.any (fun r => decide (r.user_id = row.user_id)) = true
    · rw [commitDonor_pos db row hany] at hr
      obtain ⟨x, hx, rfl⟩ := List.mem_map.1 hr
      by_cases hxid : x.user_id = row.user_id
      · exact absurd (by simp [hxid]) hne
      · simpa [hxid] using hx
    · have hany2 : db.any (fun r => decide (r.user_id = row.user_id)) = false := by
        simpa using hany
      rw [commitDonor_neg db row hany2] at hr
      rcases List.mem_append.1 hr with h | h
      · exact h
      · rw [List.mem_singleton] at h
        subst h
        exact absurd rfl hne

def dbW : List DonorRow := [⟨1, "A", "A+", 0, 0, "c", none⟩]

def rowW : DonorRow := ⟨2, "B", "O+", 1, 2, "d", none⟩

def rowW2 : DonorRow := ⟨2, "B", "B+", 3, 4, "e", some ⟨2023, 5, 1⟩⟩

/-- Witness for C4 at a concrete store: the first commit stores exactly
one row under the identifier, and re-committing under the same identifier
does not grow the table. -/
theorem c4_upsert_witness :
    (commitDonor dbW rowW).filter (fun r => decide (r.user_id = rowW.user_id)) = [rowW]
    ∧ (commitDonor (commitDonor dbW rowW) rowW2).length = (commitDonor dbW rowW).length :=
  ⟨(c4_upsert dbW rowW rowW2 (by simp [UniqueKeyed, dbW])).1,
   (c4_upsert dbW rowW rowW2 (by simp [UniqueKeyed, dbW])).2.2.2.1 rfl⟩

/-! ### Claim C5: the `start` fallback does not fire in text-capture states

`filters.TEXT` accepts command messages, and a state's handlers take
precedence over the fallbacks, so a `/start` sent in `LOCATION`,
`CONTACT`, `PROFILE` or `LOCATION_FIND` is consumed as ordinary captured
text and does not reset the conversation. -/

/-- Counterexample to C5 as stated: in the `CONTACT` capture state a fresh
`/start` is handled by the `contact` text handler (it fails the phone
pattern) and the session stays in `CONTACT`, not `MENU`. -/
theorem c5_counterexample :
    (conversationStep envNF ⟨.CONTACT, udE, []⟩ 7 "U" (.textMsg "/start")).bot.chat
        = .CONTACT
    ∧ (conversationStep envNF ⟨.CONTACT, udE, []⟩ 7 "U" (.textMsg "/start")).reply
        = some .invalidContact
    ∧ ChatState.CONTACT ≠ ChatState.MENU := by
  refine ⟨rfl, rfl, by decide⟩

/-- Claim C5 amended: a fresh `/start` resets the session to `MENU`
exactly from the states whose handlers do not accept a text message —
`MENU`, `BLOOD_TYPE`, `EMERGENCY` and the ended conversation — provided
the registration-check store call in `start` succeeds; in the text-capture
states the message is consumed by the state handler instead. -/
theorem c5_amended_start_reset (env : Env) (b : Bot) (uid : ℤ) (uname : String)
    (hdb : env.dbFail = false)
    (hst : b.chat = .MENU ∨ b.chat = .BLOOD_TYPE ∨ b.chat = .EMERGENCY ∨ b.chat = .ENDV) :
    (conversationStep env b uid uname (.textMsg "/start")).bot.chat = .MENU := by
  rcases hst with h | h | h | h <;>
    simp [conversationStep, h, fallbackStep, isStartCmd, applyH, start, hdb]

/-- Witness for the amended C5: from `BLOOD_TYPE`, `/start` resets to the
menu. -/
theorem c5_amended_witness :
    (conversationStep envNF ⟨.BLOOD_TYPE, udE, []⟩ 7 "U" (.textMsg "/start")).bot.chat
      = .MENU :=
  c5_amended_start_reset envNF ⟨.BLOOD_TYPE, udE, []⟩ 7 "U" rfl (Or.inr (Or.inl rfl))

/-! ### Claim C6: upstream failures -/

/-- Counterexample to C6 as stated: a store failure during the
registration commit does produce the generic try-again message, but the
handler still returns `ConversationHandler.END` (source line 213), so the
session does not stay in the `PROFILE` date-capture state. -/
theorem c6_counterexample :
    (profile envDBF [] udF 7 "U" "never").next = some .ENDV
    ∧ (profile envDBF [] udF 7 "U" "never").reply = some .saveError
    ∧ some ChatState.ENDV ≠ some ChatState.PROFILE := by
  refine ⟨rfl, rfl, by decide⟩

/-- Claim C6 amended: geocoding failures are recovered locally with the
generic error message and an unchanged state (both capture states); a
store failure during the commit surfaces the generic message but ends the
conversation instead of staying in the date-capture state; and the
registration-check store call in `start` is unguarded, so a store failure
there propagates out of the handler. -/
theorem c6_amended_error_handling (env : Env) (db : List DonorRow) (ud : UserData)
    (uid : ℤ) (uname : String) (t : String) :
    (resolveFreeText env t = .geoErr → t.data ≠ [] →
      location env db ud (.textMsg t) = ⟨some .LOCATION, ud, db, some .locationError, none⟩)
    ∧ (resolveFreeText env t = .geoErr → t.data ≠ [] →
      location_find env db ud (.textMsg t)
        = ⟨some .LOCATION_FIND, ud, db, some .locationError, none⟩)
    ∧ (env.dbFail = true → pyLowerStr t = "never" →
      profile env db ud uid uname t = ⟨some .ENDV, ud, db, some .saveError, none⟩)
    ∧ (env.dbFail = true → (start env db ud uid).next = none) := by
  refine ⟨fun h he => ?_, fun h he => ?_, fun h hn => ?_, fun h => ?_⟩
  · simp [location, he, h]
  · simp [location_find, he, h]
  · simp [profile, hn, commitStep, h]
  · simp [start, h]

/-- Witness for the amended C6: with a raising geocoder the location
capture re-prompts in place, and with a failing store the commit ends the
flow with the generic message while `start` raises. -/
theorem c6_amended_witness :
    location envGE [] udE (.textMsg "dhaka")
      = ⟨some .LOCATION, udE, [], some .locationError, none⟩
    ∧ profile envDBF [] udF 7 "U" "never" = ⟨some .ENDV, udF, [], some .saveError, none⟩
    ∧ (start envDBF [] udE 7).next = none :=
  ⟨(c6_amended_error_handling envGE [] udE 7 "U" "dhaka").1 (by decide) (by decide),
   (c6_amended_error_handling envDBF [] udF 7 "U" "never").2.2.1 rfl (by decide),
   (c6_amended_error_handling envDBF [] udE 7 "U" "never").2.2.2 rfl⟩

/-! ### Claim C7: blood-type payloads are stored unvalidated -/

/-- Counterexample to C7 as stated: in the `BLOOD_TYPE` state an arbitrary
callback token matching `^blood_` — here `blood_X+` — is stored verbatim
in the scratchpad even though `X+` is not one of the 8 canonical values
(the handler never checks membership in `BLOOD_TYPES`). -/
theorem c7_counterexample :
    (conversationStep envNF ⟨.BLOOD_TYPE, udE, []⟩ 7 "U"
        (.callback "blood_X+")).bot.ud.blood_type = some "X+"
    ∧ "X+" ∉ BLOOD_TYPES := by
  refine ⟨rfl, by decide⟩

/-- Claim C7 amended: selections coming from the bot's own keyboards
(payload `blood_` followed by one of the 8 canonical values) store exactly
that canonical value, in both the registration and the emergency handler;
arbitrary `blood_`-matching tokens, however, store whatever follows the
first underscore without validation. -/
theorem c7_amended_blood_capture (env : Env) (db : List DonorRow) (ud : UserData)
    (bt : String) (h : bt ∈ BLOOD_TYPES) :
    (blood_type_callback env db ud ("blood_" ++ bt)).ud.blood_type = some bt
    ∧ (emergency_callback env db ud ("blood_" ++ bt)).ud.blood_type = some bt
    ∧ (∀ d : String, (blood_type_callback env db ud d).ud.blood_type
        = some (bloodPayload d)) := by
  have hb : bloodPayload ("blood_" ++ bt) = bt := by
    simp only [BLOOD_TYPES, List.mem_cons, List.not_mem_nil, or_false] at h
    rcases h with rfl | rfl | rfl | rfl | rfl | rfl | rfl | rfl <;> decide
  exact ⟨by simp [blood_type_callback, hb], by simp [emergency_callback, hb],
         fun d => by simp [blood_type_callback]⟩

/-- Witness for the amended C7 at the keyboard payload `blood_O+`. -/
theorem c7_amended_witness :
    (blood_type_callback envNF [] udE ("blood_" ++ "O+")).ud.blood_type = some "O+"
    ∧ (emergency_callback envNF [] udE ("blood_" ++ "O+")).ud.blood_type = some "O+" :=
  ⟨(c7_amended_blood_capture envNF [] udE "O+" (by decide)).1,
   (c7_amended_blood_capture envNF [] udE "O+" (by decide)).2.1⟩

/-! ### Claim C1: scratchpad reads versus capture steps -/

/-- Counterexample to C1 as stated: the plain find path.  Starting a fresh
session, choosing "find" from the menu moves straight to `LOCATION_FIND`
with no blood-type capture, and the location message then makes
`location_find` read the absent sought blood type (`KeyError` at source
line 279): the handler crashes, the matcher never runs. -/
theorem c1_counterexample :
    (conversationStep envNF ((conversationStep envNF
        ((conversationStep envNF ⟨.ENDV, udE, []⟩ 7 "U" (.textMsg "/start")).bot)
        7 "U" (.callback "find")).bot) 7 "U" (.locMsg 23 90)).crash = true
    ∧ (conversationStep envNF ((conversationStep envNF
        ((conversationStep envNF ⟨.ENDV, udE, []⟩ 7 "U" (.textMsg "/start")).bot)
        7 "U" (.callback "find")).bot) 7 "U" (.locMsg 23 90)).queried = none
    ∧ ((conversationStep envNF
        ((conversationStep envNF ⟨.ENDV, udE, []⟩ 7 "U" (.textMsg "/start")).bot)
        7 "U" (.callback "find")).bot).chat = .LOCATION_FIND
    ∧ ((conversationStep envNF
        ((conversationStep envNF ⟨.ENDV, udE, []⟩ 7 "U" (.textMsg "/start")).bot)
        7 "U" (.callback "find")).bot).ud.blood_type = none := by
  refine ⟨rfl, rfl, rfl, rfl⟩

/-- Claim C1 amended: the capture-before-read invariant holds on the
emergency path — `emergency_callback` stores the sought blood type before
entering `LOCATION_FIND`, and `location_find` runs the matcher with the
stored value whenever one is present — but the plain find path
(`find_blood`) enters `LOCATION_FIND` without any blood-type capture, and
`location_find` then crashes on the absent scratchpad field. -/
theorem c1_amended_scratchpad_read (env : Env) (db : List DonorRow) (ud : UserData)
    (d : String) (la lo : ℚ) :
    ((emergency_callback env db ud d).ud.blood_type = some (bloodPayload d)
      ∧ (emergency_callback env db ud d).next = some .LOCATION_FIND)
    ∧ (∀ bt, ud.blood_type = some bt →
        (location_find env db ud (.locMsg la lo)).queried = some (la, lo, bt)
        ∧ (location_find env db ud (.locMsg la lo)).next = some .ENDV)
    ∧ (ud.blood_type = none →
        (location_find env db ud (.locMsg la lo)).next = none
        ∧ (location_find env db ud (.locMsg la lo)).queried = none)
    ∧ ((find_blood env db ud).ud = ud
        ∧ (find_blood env db ud).next = some .LOCATION_FIND) := by
  refine ⟨⟨by simp [emergency_callback], by simp [emergency_callback]⟩,
          fun bt h => ?_, fun h => ?_, by simp [find_blood], by simp [find_blood]⟩
  · cases hd : (find_nearest_donors env db la lo bt 5).isEmpty <;>
      simp [location_find, runFind, h, hd]
  · simp [location_find, runFind, h]

/-- Witness for the amended C1: the emergency path captures `B-` before
`LOCATION_FIND`, and the matcher then runs with exactly that value. -/
theorem c1_amended_witness :
    (emergency_callback envNF [] udE "blood_B-").ud.blood_type = some "B-"
    ∧ (location_find envNF [] ⟨none, none, some "B-", none⟩
        (.locMsg 23 90)).queried = some (23, 90, "B-") :=
  ⟨(c1_amended_scratchpad_read envNF [] udE "blood_B-" 23 90).1.1.trans (by decide),
   ((c1_amended_scratchpad_read envNF [] ⟨none, none, some "B-", none⟩ "blood_B-" 23 90).2.1
      "B-" rfl).1⟩

/-! ### Claim C9: the `PROFILE` date step -/

/-- Claim C9.  In the date-capture state, with a complete scratchpad and a
working store: text lowering to `"never"` commits with an absent
last-donation date and ends the flow; text that `strptime('%Y-%m-%d')`
accepts commits with that date and ends the flow; any other text is
rejected — no commit, state stays `PROFILE`. -/
theorem c9_profile_date (env : Env) (db : List DonorRow) (ud : UserData)
    (uid : ℤ) (uname : String) (t : String) (bt : String) (la lo : ℚ) (ct : String)
    (hbt : ud.blood_type = some bt) (hla : ud.latitude = some la)
    (hlo : ud.longitude = some lo) (hct : ud.contact = some ct)
    (hdb : env.dbFail = false) :
    (pyLowerStr t = "never" →
      profile env db ud uid uname t
        = ⟨some .ENDV, ud, commitDonor db ⟨uid, uname, bt, la, lo, ct, none⟩,
           some .savedOk, none⟩)
    ∧ (∀ dt, pyLowerStr t ≠ "never" → pyStrptimeYmd t = some dt →
      profile env db ud uid uname t
        = ⟨some .ENDV, ud, commitDonor db ⟨uid, uname, bt, la, lo, ct, some dt⟩,
           some .savedOk, none⟩)
    ∧ (pyLowerStr t ≠ "never" → pyStrptimeYmd t = none →
      profile env db ud uid uname t = ⟨some .PROFILE, ud, db, some .invalidDate, none⟩) := by
  refine ⟨fun h => ?_, fun dt hn h => ?_, fun hn h => ?_⟩
  · simp [profile, h, commitStep, hdb, hbt, hla, hlo, hct]
  · simp [profile, hn, h, commitStep, hdb, hbt, hla, hlo, hct]
  · simp [profile, hn, h]

/-- Witness for C9 at the spec's test vectors: `"Never"` commits with an
absent date, `"2023-05-01"` commits with that date, `"never-mind"`
re-prompts in place. -/
theorem c9_profile_date_witness :
    profile envNF [] udF 7 "U" "Never"
      = ⟨some .ENDV, udF, commitDonor [] ⟨7, "U", "O+", 1, 2, "+8801712345678", none⟩,
         some .savedOk, none⟩
    ∧ profile envNF [] udF 7 "U" "2023-05-01"
      = ⟨some .ENDV, udF,
         commitDonor [] ⟨7, "U", "O+", 1, 2, "+8801712345678", some ⟨2023, 5, 1⟩⟩,
         some .savedOk, none⟩
    ∧ profile envNF [] udF 7 "U" "never-mind"
      = ⟨some .PROFILE, udF, [], some .invalidDate, none⟩ :=
  ⟨(c9_profile_date envNF [] udF 7 "U" "Never" "O+" 1 2 "+8801712345678"
      rfl rfl rfl rfl rfl).1 (by decide),
   (c9_profile_date envNF [] udF 7 "U" "2023-05-01" "O+" 1 2 "+8801712345678"
      rfl rfl rfl rfl rfl).2.1 ⟨2023, 5, 1⟩ (by decide) (by decide),
   (c9_profile_date envNF [] udF 7 "U" "never-mind" "O+" 1 2 "+8801712345678"
      rfl rfl rfl rfl rfl).2.2 (by decide) (by decide)⟩

/-! ### Claim C3: the location-resolution fallback chain -/

/-- The free-text input `1°2'.."N 3°4'5"E @23.777,90.399` (built from
characters to keep the quoting readable): the DMS regex matches it with
the seconds capture `..`, which Python `float` rejects, so the handler
dies before the later strategies run — even though the `@lat,lon`
extraction would succeed on the same text. -/
def badDmsInput : String :=
  String.mk (['1', degCh, '2', minCh, dotCh, dotCh, secCh, 'N', ' ',
              '3', degCh, '4', minCh, '5', secCh, 'E', ' ',
              Char.ofNat 64, '2', '3', dotCh, '7', '7', '7', commaCh,
              '9', '0', dotCh, '3', '9', '9'])

/-- Counterexample to C3 as stated: on `badDmsInput` the DMS regex matches
but `float` raises an uncaught `ValueError` (source line 59), so the
resolver crashes at strategy 1 — strategy 2, which would succeed on this
very text, is never tried, the user gets no re-prompt, and the handler
dies in both capture states instead of re-prompting in place. -/
theorem c3_counterexample :
    parse_dms_coordinate badDmsInput = .error ()
    ∧ (extract_coords_from_google_maps_link badDmsInput).isSome = true
    ∧ resolveFreeText envNF badDmsInput = .crash
    ∧ location envNF [] udE (.textMsg badDmsInput) = ⟨none, udE, [], none, none⟩
    ∧ location_find envNF [] udE (.textMsg badDmsInput) = ⟨none, udE, [], none, none⟩ := by
  refine ⟨rfl, rfl, rfl, rfl, rfl⟩

/-- Claim C3 amended.  For free text on which the DMS step terminates
cleanly, the resolver tries the three strategies in the fixed order — DMS
parse, then map-link extraction (`@lat,lon` before `ll=lat,lon`), then
geocoding of the text with `", Bangladesh"` appended — stopping at the
first success; a native location share is stored verbatim without
parsing; and when all three strategies fail the handlers re-prompt
without leaving their state.  But when the DMS regex matches with a
seconds capture that is not a valid float, the uncaught `ValueError`
aborts the handler: the remaining strategies are never tried and no
re-prompt is sent (the framework then leaves the state unchanged). -/
theorem c3_amended_resolver_priority (env : Env) (db : List DonorRow) (ud : UserData)
    (t : String) (la lo : ℚ) :
    (∀ a b, parse_dms_coordinate t = .ok (some (a, b)) →
        resolveFreeText env t = .okR a b)
    ∧ (parse_dms_coordinate t = .ok none → ∀ a b,
        extract_coords_from_google_maps_link t = some (a, b) →
        resolveFreeText env t = .okR a b)
    ∧ (parse_dms_coordinate t = .ok none →
        extract_coords_from_google_maps_link t = none →
        resolveFreeText env t =
          match env.geocode (t ++ ", Bangladesh") with
          | .found a b => .okR a b
          | .notFound => .invalid
          | .geoError => .geoErr)
    ∧ (∀ a b, searchPair atTag t.data = some (a, b) →
        extract_coords_from_google_maps_link t = some (a, b))
    ∧ (searchPair atTag t.data = none →
        extract_coords_from_google_maps_link t = searchPair llTag t.data)
    ∧ (location env db ud (.locMsg la lo)).ud
        = ⟨some la, some lo, ud.blood_type, ud.contact⟩
    ∧ (resolveFreeText env t = .invalid ∨ resolveFreeText env t = .geoErr →
        (location env db ud (.textMsg t)).next = some .LOCATION
        ∧ (location_find env db ud (.textMsg t)).next = some .LOCATION_FIND)
    ∧ (parse_dms_coordinate t = .error () → resolveFreeText env t = .crash)
    ∧ (resolveFreeText env t = .crash →
        location env db ud (.textMsg t) = ⟨none, ud, db, none, none⟩
        ∧ location_find env db ud (.textMsg t) = ⟨none, ud, db, none, none⟩) := by
  refine ⟨fun a b h => by simp [resolveFreeText, h], fun h a b h2 => ?_, fun h h2 => ?_,
          fun a b h => by simp [extract_coords_from_google_maps_link, h],
          fun h => by simp [extract_coords_from_google_maps_link, h],
          by simp [location], fun h => ?_,
          fun h => by simp [resolveFreeText, h], fun h => ?_⟩
  · simp [resolveFreeText, h, h2]
  · simp [resolveFreeText, h, h2]
  · constructor
    · by_cases he : t.data = []
      · simp [location, he]
      · rcases h with h | h <;> simp [location, he, h]
    · by_cases he : t.data = []
      · simp [location_find, he]
      · rcases h with h | h <;> simp [location_find, he, h]
  · have hne : t.data ≠ [] := by
      intro he
      have hm : dmsMatch t.data = none := by rw [he]; rfl
      have hp : parse_dms_coordinate t = .ok none := by
        rw [parse_dms_coordinate, hm]
      have hx : extract_coords_from_google_maps_link t = none := by
        rw [extract_coords_from_google_maps_link, he]
        rfl
      rw [resolveFreeText, hp, hx] at h
      cases hgeo : env.geocode (t ++ ", Bangladesh") <;> rw [hgeo] at h <;> simp at h
    exact ⟨by simp [location, hne, h], by simp [location_find, hne, h]⟩

/-- Witness for the amended C3: on `"dhaka"` (no DMS match, no map-link
match) the resolver falls through to the geocoder — `.invalid` when it
finds nothing — and both capture handlers stay in their state; a native
share is stored verbatim; and on the bad-seconds DMS input the handler
dies with no re-prompt. -/
theorem c3_amended_witness :
    resolveFreeText envNF "dhaka" = .invalid
    ∧ (location envNF [] udE (.textMsg "dhaka")).next = some .LOCATION
    ∧ (location_find envNF [] udE (.textMsg "dhaka")).next = some .LOCATION_FIND
    ∧ (location envNF [] udE (.locMsg 23 90)).ud = ⟨some 23, some 90, none, none⟩
    ∧ location envGE [] udE (.textMsg badDmsInput) = ⟨none, udE, [], none, none⟩ := by
  have h3 := (c3_amended_resolver_priority envNF [] udE "dhaka" 23 90).2.2.1 rfl rfl
  have hinv : resolveFreeText envNF "dhaka" = .invalid := h3
  have hstay := (c3_amended_resolver_priority envNF [] udE "dhaka" 23 90).2.2.2.2.2.2.1
    (Or.inl hinv)
  have hcrash := ((c3_amended_resolver_priority envGE [] udE badDmsInput 23 90).2.2.2.2.2.2.2.2
    ((c3_amended_resolver_priority envGE [] udE badDmsInput 23 90).2.2.2.2.2.2.2.1 rfl)).1
  exact ⟨hinv, hstay.1, hstay.2,
         (c3_amended_resolver_priority envNF [] udE "dhaka" 23 90).2.2.2.2.2.1, hcrash⟩

/-! ### Claim C10: DMS strings parse to the closed-form decimal value

A well-formed DMS input is quantified over its digit content: each numeric
field is an arbitrary nonempty list of decimal digits, rendered into the
string exactly as the regex expects it, and the parse is proved to return
the closed form `sign * (D + M/60 + S/3600)` exactly (the model computes
in `ℚ`, so exact equality implies the 1e-6 tolerance of the spec). -/

def digitCh (d : Fin 10) : Char := Char.ofNat (48 + d.val)

def renderNat (ds : List (Fin 10)) : List Char := ds.map digitCh

def digitsVal (ds : List (Fin 10)) : ℕ := ds.foldl (fun a d => 10 * a + d.val) 0

/-- `D°M'S.F"H` for one coordinate, with `H` the hemisphere letter. -/
def renderHalf (dd mm sw sf : List (Fin 10)) (hemi : Char) : List Char :=
  renderNat dd ++ degCh :: (renderNat mm ++ minCh ::
    ((renderNat sw ++ dotCh :: renderNat sf) ++ secCh :: [hemi]))

/-- A well-formed DMS string `D°M'S.F"H D°M'S.F"H` from digit lists. -/
def renderDMS (latD latM latSw latSf : List (Fin 10)) (south : Bool)
    (lonD lonM lonSw lonSf : List (Fin 10)) (west : Bool) : String :=
  String.mk (renderHalf latD latM latSw latSf (if south then 'S' else 'N')
    ++ ' ' :: renderHalf lonD lonM lonSw lonSf (if west then 'W' else 'E'))

/-- The closed-form conversion of the spec: `sign * (D + M/60 + S/3600)`
with `S` the decimal value of the seconds field. -/
def dmsClosed (dd mm sw sf : List (Fin 10)) (neg : Bool) : ℚ :=
  (if neg then (-1 : ℚ) else 1) *
    ((digitsVal dd : ℚ) + (digitsVal mm : ℚ) / 60 +
      ((digitsVal sw : ℚ) + (digitsVal sf : ℚ) / 10 ^ sf.length) / 3600)

lemma digitCh_facts : ∀ d : Fin 10,
    isDigitCh (digitCh d) = true ∧ isDotDigitCh (digitCh d) = true
    ∧ isWsCh (digitCh d) = false ∧ (digitCh d == dotCh) = false
    ∧ (digitCh d).toNat - 48 = d.val := by decide

lemma renderNat_digits (ds : List (Fin 10)) : ∀ c ∈ renderNat ds, isDigitCh c = true := by
  intro c hc
  obtain ⟨d, _, rfl⟩ := List.mem_map.1 hc
  exact (digitCh_facts d).1

lemma renderNat_dotDigits (ds : List (Fin 10)) :
    ∀ c ∈ renderNat ds, isDotDigitCh c = true := by
  intro c hc
  obtain ⟨d, _, rfl⟩ := List.mem_map.1 hc
  exact (digitCh_facts d).2.1

lemma renderNat_not_dot (ds : List (Fin 10)) :
    ∀ c ∈ renderNat ds, (c == dotCh) = false := by
  intro c hc
  obtain ⟨d, _, rfl⟩ := List.mem_map.1 hc
  exact (digitCh_facts d).2.2.2.1

lemma renderNat_ne (ds : List (Fin 10)) (h : ds ≠ []) : renderNat ds ≠ [] := by
  cases ds with
  | nil => exact absurd rfl h
  | cons d t => simp [renderNat]

lemma renderNat_length (ds : List (Fin 10)) : (renderNat ds).length = ds.length :=
  List.length_map _ _

lemma foldl_digits (ds : List (Fin 10)) (a : ℕ) :
    (ds.map digitCh).foldl (fun a c => 10 * a + (c.toNat - 48)) a
      = ds.foldl (fun a d => 10 * a + d.val) a := by
  induction ds generalizing a with
  | nil => rfl
  | cons d t ih =>
    simp only [List.map_cons, List.foldl_cons]
    rw [(digitCh_facts d).2.2.2.2]
    exact ih _

lemma pyNatVal_render (ds : List (Fin 10)) : pyNatVal (renderNat ds) = digitsVal ds :=
  foldl_digits ds 0

lemma takeP_app (p : Char → Bool) (l rest : List Char)
    (hl : ∀ c ∈ l, p c = true)
    (hr : ∀ c cs, rest = c :: cs → p c = false) :
    takeP p (l ++ rest) = (l, rest) := by
  induction l with
  | nil =>
    cases rest with
    | nil => rfl
    | cons c cs => simp [takeP, hr c cs rfl]
  | cons c t ih =>
    have hc := hl c (List.mem_cons_self c t)
    simp [takeP, hc, ih (fun x hx => hl x (List.mem_cons_of_mem c hx))]

lemma takeP_none (p : Char → Bool) (l : List Char)
    (h : ∀ c cs, l = c :: cs → p c = false) : takeP p l = ([], l) := by
  cases l with
  | nil => rfl
  | cons c cs => simp [takeP, h c cs rfl]

lemma pGroup_app (p : Char → Bool) (l rest : List Char) (hne : l ≠ [])
    (hl : ∀ c ∈ l, p c = true)
    (hr : ∀ c cs, rest = c :: cs → p c = false) :
    pGroup p (l ++ rest) = some (l, rest) := by
  rw [pGroup, takeP_app p l rest hl hr]
  cases l with
  | nil => exact absurd rfl hne
  | cons c cs => rfl

lemma pLit_cons (c : Char) (r : List Char) : pLit c (c :: r) = some r := by
  simp [pLit]

lemma pHemi_cons (d1 d2 x : Char) (r : List Char) (h : (x == d1 || x == d2) = true) :
    pHemi d1 d2 (x :: r) = some (x, r) := by
  simp [pHemi, h]

lemma head_single (p : Char → Bool) (c0 : Char) (l : List Char) (h : p c0 = false) :
    ∀ c cs, (c0 :: l) = c :: cs → p c = false := by
  intro c cs hc
  injection hc with h1 _
  subst h1
  exact h

lemma splitOnDot_nodot (b : List Char) (hb : ∀ c ∈ b, (c == dotCh) = false) :
    splitOnDot b = [b] := by
  induction b with
  | nil => rfl
  | cons c cs ih =>
    simp only [splitOnDot]
    rw [ih (fun x hx => hb x (List.mem_cons_of_mem c hx))]
    simp [hb c (List.mem_cons_self c cs)]

lemma splitOnDot_app (a b : List Char)
    (ha : ∀ c ∈ a, (c == dotCh) = false) (hb : ∀ c ∈ b, (c == dotCh) = false) :
    splitOnDot (a ++ dotCh :: b) = [a, b] := by
  induction a with
  | nil =>
    simp only [List.nil_append, splitOnDot]
    rw [splitOnDot_nodot b hb]
    simp
  | cons c cs ih =>
    simp only [List.cons_append, splitOnDot, List.append_eq]
    rw [ih (fun x hx => ha x (List.mem_cons_of_mem c hx))]
    simp [ha c (List.mem_cons_self c cs)]

lemma pyFloat_render (sw sf : List (Fin 10)) (hsw : sw ≠ []) :
    pyFloatDotDigits (renderNat sw ++ dotCh :: renderNat sf)
      = some ((digitsVal sw : ℚ) + (digitsVal sf : ℚ) / 10 ^ sf.length) := by
  rw [pyFloatDotDigits, splitOnDot_app _ _ (renderNat_not_dot sw) (renderNat_not_dot sf)]
  have h1 : (renderNat sw).isEmpty = false := by
    cases sw with
    | nil => exact absurd rfl hsw
    | cons d ds => rfl
  simp [h1, pyNatVal_render, renderNat_length]

lemma skipWs_space (l : List Char)
    (h : ∀ c cs, l = c :: cs → isWsCh c = false) :
    skipWs (' ' :: l) = l := by
  simp [skipWs, takeP, takeP_none isWsCh l h, isWsCh]

lemma pGroup_secs (sw sf : List (Fin 10)) (r : List Char) (hsw : sw ≠ []) :
    pGroup isDotDigitCh ((renderNat sw ++ dotCh :: renderNat sf) ++ secCh :: r)
      = some (renderNat sw ++ dotCh :: renderNat sf, secCh :: r) := by
  apply pGroup_app
  · cases sw with
    | nil => exact absurd rfl hsw
    | cons d ds => simp [renderNat]
  · intro c hc
    rcases List.mem_append.1 hc with h | h
    · exact renderNat_dotDigits sw c h
    · rcases List.mem_cons.1 h with rfl | h2
      · decide
      · exact renderNat_dotDigits sf c h2
  · intro c cs hc
    injection hc with hh1 _
    subst hh1
    decide

lemma dmsHalf_render (d1 d2 : Char) (dd mm sw sf : List (Fin 10)) (hemi : Char)
    (rest : List Char) (hdd : dd ≠ []) (hmm : mm ≠ []) (hsw : sw ≠ [])
    (hh : (hemi == d1 || hemi == d2) = true) :
    dmsHalf d1 d2 (renderHalf dd mm sw sf hemi ++ rest)
      = some ((renderNat dd, renderNat mm, renderNat sw ++ dotCh :: renderNat sf, hemi),
              rest) := by
  have e1 : renderHalf dd mm sw sf hemi ++ rest
      = renderNat dd ++ degCh :: (renderNat mm ++ minCh ::
          ((renderNat sw ++ dotCh :: renderNat sf) ++ secCh :: hemi :: rest)) := by
    simp [renderHalf]
  rw [dmsHalf, e1]
  rw [pGroup_app isDigitCh (renderNat dd) _ (renderNat_ne dd hdd) (renderNat_digits dd)
      (head_single isDigitCh degCh _ (by decide))]
  simp only [Option.some_bind]
  rw [pLit_cons]
  simp only [Option.some_bind]
  rw [pGroup_app isDigitCh (renderNat mm) _ (renderNat_ne mm hmm) (renderNat_digits mm)
      (head_single isDigitCh minCh _ (by decide))]
  simp only [Option.some_bind]
  rw [pLit_cons]
  simp only [Option.some_bind]
  rw [pGroup_secs sw sf _ hsw]
  simp only [Option.some_bind]
  rw [pLit_cons]
  simp only [Option.some_bind]
  rw [pHemi_cons d1 d2 hemi rest hh]
  rfl

lemma dmsMatch_render (latD latM latSw latSf lonD lonM lonSw lonSf : List (Fin 10))
    (south west : Bool) (h1 : latD ≠ []) (h2 : latM ≠ []) (h3 : latSw ≠ [])
    (h4 : lonD ≠ []) (h5 : lonM ≠ []) (h6 : lonSw ≠ []) :
    dmsMatch (renderHalf latD latM latSw latSf (if south then 'S' else 'N')
        ++ ' ' :: renderHalf lonD lonM lonSw lonSf (if west then 'W' else 'E'))
      = some ⟨renderNat latD, renderNat latM,
              renderNat latSw ++ dotCh :: renderNat latSf, (if south then 'S' else 'N'),
              renderNat lonD, renderNat lonM,
              renderNat lonSw ++ dotCh :: renderNat lonSf, (if west then 'W' else 'E')⟩ := by
  rw [dmsMatch]
  rw [dmsHalf_render 'N' 'S' latD latM latSw latSf _ _ h1 h2 h3
      (by cases south <;> decide)]
  simp only [Option.some_bind]
  have hws : ∀ c cs,
      renderHalf lonD lonM lonSw lonSf (if west then 'W' else 'E') = c :: cs →
      isWsCh c = false := by
    cases lonD with
    | nil => exact absurd rfl h4
    | cons d ds =>
      intro c cs hc
      simp only [renderHalf, renderNat, List.map_cons, List.cons_append] at hc
      injection hc with hh1 _
      subst hh1
      exact (digitCh_facts d).2.2.1
  rw [skipWs_space _ hws]
  rw [show renderHalf lonD lonM lonSw lonSf (if west then 'W' else 'E')
        = renderHalf lonD lonM lonSw lonSf (if west then 'W' else 'E') ++ []
      from (List.append_nil _).symm]
  rw [dmsHalf_render 'E' 'W' lonD lonM lonSw lonSf _ [] h4 h5 h6
      (by cases west <;> decide)]
  rfl

/-- Claim C10.  Every well-formed DMS string parses to exactly the
closed-form decimal-degree conversion, with the sign negative for the
`S` and `W` hemispheres (exact `ℚ` equality, hence within 1e-6). -/
theorem c10_dms_closed_form (latD latM latSw latSf lonD lonM lonSw lonSf : List (Fin 10))
    (south west : Bool) (h1 : latD ≠ []) (h2 : latM ≠ []) (h3 : latSw ≠ [])
    (h4 : lonD ≠ []) (h5 : lonM ≠ []) (h6 : lonSw ≠ []) :
    parse_dms_coordinate (renderDMS latD latM latSw latSf south lonD lonM lonSw lonSf west)
      = .ok (some (dmsClosed latD latM latSw latSf south,
                   dmsClosed lonD lonM lonSw lonSf west)) := by
  rw [parse_dms_coordinate]
  have hdata : (renderDMS latD latM latSw latSf south lonD lonM lonSw lonSf west).data
      = renderHalf latD latM latSw latSf (if south then 'S' else 'N')
        ++ ' ' :: renderHalf lonD lonM lonSw lonSf (if west then 'W' else 'E') := rfl
  rw [hdata,
      dmsMatch_render latD latM latSw latSf lonD lonM lonSw lonSf south west
        h1 h2 h3 h4 h5 h6]
  have hs : ((if south then 'S' else 'N') == 'S') = south := by cases south <;> decide
  have hw : ((if west then 'W' else 'E') == 'W') = west := by cases west <;> decide
  simp only [dmsValue, hs, hw, pyFloat_render latSw latSf h3, pyFloat_render lonSw lonSf h6,
             Option.map_some]
  simp [dmsClosed, pyNatVal_render]

/-- Witness for C10 at the spec's example `23°46'12.0"N 90°23'55.0"E`,
whose latitude closed form is `23 + 46/60 + 12/3600`. -/
theorem c10_dms_witness :
    parse_dms_coordinate (renderDMS [2, 3] [4, 6] [1, 2] [0] false [9, 0] [2, 3] [5, 5] [0] false)
      = .ok (some (dmsClosed [2, 3] [4, 6] [1, 2] [0] false,
                   dmsClosed [9, 0] [2, 3] [5, 5] [0] false))
    ∧ dmsClosed [2, 3] [4, 6] [1, 2] [0] false = 23 + 46 / 60 + 12 / 3600 :=
  ⟨c10_dms_closed_form [2, 3] [4, 6] [1, 2] [0] [9, 0] [2, 3] [5, 5] [0] false false
      (by decide) (by decide) (by decide) (by decide) (by decide) (by decide),
   by
    have e1 : digitsVal [2, 3] = 23 := by decide
    have e2 : digitsVal [4, 6] = 46 := by decide
    have e3 : digitsVal [1, 2] = 12 := by decide
    have e4 : digitsVal [0] = 0 := by decide
    norm_num [dmsClosed, e1, e2, e3, e4]⟩
